import Mathlib

/-!
Verification of the BlueZ D-Bus device manager (`bluez.py`) and pairing
agent (`agent.py`) against their natural-language specification.

The Python code is shallowly embedded: every external effect (a D-Bus
method call, a directory listing, a signal-loop outcome) is passed in as
an explicit argument describing the outcome the external world produced,
and each embedded operation returns its Python return value together with
a trace of the externally visible actions it performed (commands issued,
sessions removed, processes stopped).  Exceptions raised by external
calls are values of explicit error types; a Python `try/except` block
becomes a `match` on an `Except` value.
-/

/-- An exception of class `dbus.exceptions.DBusException`, the transport
fault raised by D-Bus calls and the only class caught by the
`except dbus.exceptions.DBusException` handlers in `bluez.py`. -/
structure DBusException where
  message : String
deriving DecidableEq, Repr

/-- An arbitrary Python exception, as caught by the broad
`except Exception` handlers in `bluez.py`, or raised by an operator
callback in `agent.py`. -/
structure PyException where
  message : String
deriving DecidableEq, Repr

/-- A Python value as returned by the operator callback `ui_callback`;
only the constructors relevant to the Agent handlers are modelled. -/
inductive PyValue where
  | none
  | bool (b : Bool)
  | int (n : Int)
  | str (s : String)
deriving DecidableEq, Repr

/-- Python truthiness of a `PyValue` (`bool(v)`): `None`, `False`, `0`
and the empty string are falsy, everything else is truthy. -/
def PyValue.truthy : PyValue → Bool
  | .none => false
  | .bool b => b
  | .int n => n ≠ 0
  | .str s => s ≠ ""

/-- Conversion `dbus.UInt32(v)`: accepts Python ints (and bools, which
are ints) in the unsigned 32-bit range, raising `TypeError` or
`OverflowError` otherwise. -/
def PyValue.toUInt32 : PyValue → Except PyException Nat
  | .bool b => .ok (if b then 1 else 0)
  | .int n =>
      if 0 ≤ n ∧ n < 2 ^ 32 then .ok n.toNat
      else .error ⟨"OverflowError"⟩
  | _ => .error ⟨"TypeError"⟩

namespace Agent

/-!
Embedding of `agent.py`.  Each D-Bus handler of class `Agent` is a
function of the outcome of its single `self.ui_callback(...)` call — the
only input that affects its control flow (the `device`, `passkey`,
`entered`, `uuid` arguments are passed through to the callback and to
log lines only).  An operator callback that raises is the `.error` case;
`agent.py` contains no `try/except`, so an `.error` callback outcome
propagates as the handler's own `.error` result.
-/

/-- The D-Bus reply a handler produces when it returns normally. -/
inductive AgentReply where
  /-- `return pin` in `RequestPinCode`: the callback's value itself. -/
  | pinReply (v : PyValue)
  /-- `return dbus.UInt32(passkey)` in `RequestPasskey`. -/
  | passkeyReply (n : Nat)
  /-- `return False`: the documented rejection value of every handler. -/
  | rejected
  /-- Falling off the end, or a bare `return`: Python returns `None`,
  an empty acknowledgment for the handlers with out_signature "". -/
  | acknowledged
deriving DecidableEq, Repr

/-- `Agent.RequestPinCode`: `pin = self.ui_callback("pin", device)`;
`if pin: return pin else: return False`. -/
def RequestPinCode (cb : Except PyException PyValue) :
    Except PyException AgentReply :=
  match cb with
  | .error e => .error e
  | .ok pin => if pin.truthy then .ok (.pinReply pin) else .ok .rejected

/-- `Agent.RequestPasskey`:
`passkey = self.ui_callback("passkey", device)`;
`if passkey is not None: return dbus.UInt32(passkey) else: return False`. -/
def RequestPasskey (cb : Except PyException PyValue) :
    Except PyException AgentReply :=
  match cb with
  | .error e => .error e
  | .ok PyValue.none => .ok .rejected
  | .ok passkey =>
      match passkey.toUInt32 with
      | .error e => .error e
      | .ok n => .ok (.passkeyReply n)

/-- `Agent.RequestConfirmation`:
`response = self.ui_callback("confirm", device, passkey)`;
`if response: return else: return False`. -/
def RequestConfirmation (cb : Except PyException PyValue) :
    Except PyException AgentReply :=
  match cb with
  | .error e => .error e
  | .ok r => if r.truthy then .ok .acknowledged else .ok .rejected

/-- `Agent.AuthorizeService`: logs on a truthy response (falling off the
end, returning `None`), `return False` on a falsy one. -/
def AuthorizeService (cb : Except PyException PyValue) :
    Except PyException AgentReply :=
  match cb with
  | .error e => .error e
  | .ok r => if r.truthy then .ok .acknowledged else .ok .rejected

/-- `Agent.DisplayPasskey`: same shape as `AuthorizeService`. -/
def DisplayPasskey (cb : Except PyException PyValue) :
    Except PyException AgentReply :=
  match cb with
  | .error e => .error e
  | .ok r => if r.truthy then .ok .acknowledged else .ok .rejected

/-- `Agent.DisplayPinCode`: same shape as `AuthorizeService`. -/
def DisplayPinCode (cb : Except PyException PyValue) :
    Except PyException AgentReply :=
  match cb with
  | .error e => .error e
  | .ok r => if r.truthy then .ok .acknowledged else .ok .rejected

/-- `Agent.Cancel`: same shape as `AuthorizeService` (the falsy branch
logs at warning severity and returns `False`). -/
def Cancel (cb : Except PyException PyValue) :
    Except PyException AgentReply :=
  match cb with
  | .error e => .error e
  | .ok r => if r.truthy then .ok .acknowledged else .ok .rejected

end Agent

namespace Bluez

/-!
Embedding of `bluez.py` (`class BluetoothDeviceManager`).  A manager
instance is identified by the fixed data the embedded operations need:
the BlueZ object root `constants.bluez_path` (the `constants` module is
not part of this repository; the root is kept abstract as a `String`
parameter) and the adapter interface name (e.g. `"hci0"`).
-/

/-- Character-wise substitution, embedding Python `str.replace(old, new)`
for a single-character pattern (the only form `bluez.py` uses). -/
def replaceChar (old new : Char) (s : String) : String :=
  ⟨s.data.map fun c => if c = old then new else c⟩

/-- `device_address.replace(":", "_")` in `get_device_path`. -/
def formatAddress (device_address : String) : String :=
  replaceChar ':' '_' device_address

/-- Modelled from the spec: the Bus Signal Router "extracts the device
address by parsing the trailing path segment, undoing the bus's
path-safe character substitution".  That router code is not under
`src/`; its substitution-undoing step is the inverse replacement of
underscores by colons. -/
def unformatAddress (segment : String) : String :=
  replaceChar '_' ':' segment

/-- `get_device_path`:
`f"{constants.bluez_path}/{self.interface}/dev_{formatted_address}"`. -/
def get_device_path (bluez_path interface device_address : String) :
    String :=
  bluez_path ++ "/" ++ interface ++ "/dev_" ++ formatAddress device_address

/-- Substring containment on character lists, embedding the Python
substring test `needle in hay` used by `is_device_connected`. -/
def isSeg (needle : List Char) : List Char → Bool
  | [] => needle.isEmpty
  | c :: t => needle.isPrefixOf (c :: t) || isSeg needle t

/-- `is_device_paired`: returns `properties.Get(device_interface,
"Paired")`; a `DBusException` from the probe is caught and degraded to
`False`.  The probe outcome is the `get` argument. -/
def is_device_paired (get : Except DBusException Bool) : Bool :=
  match get with
  | .ok paired => paired
  | .error _ => false

/-- `is_device_connected`: reads `Connected` (outcome `get`), then
`if self.interface not in device_path: return False`, else returns the
value read; a `DBusException` inside the `try` is caught and degraded
to `False`. -/
def is_device_connected (interface device_path : String)
    (get : Except DBusException Bool) : Bool :=
  match get with
  | .error _ => false
  | .ok connected =>
      if isSeg interface.data device_path.data then connected else false

/-- The three bus interactions `pair` performs, in program order: the
first `Paired` read, the `device.Pair()` command, and the read-back of
`Paired`.  Each may raise a `DBusException`. -/
structure PairBus where
  paired0 : Except DBusException Bool
  pairCmd : Except DBusException Unit
  paired1 : Except DBusException Bool
deriving Repr

/-- `pair`: returns `(result, pairIssued)`.  `result` is the Python
return value — note the `except` branch only logs, so Python returns
`None` there, hence `Option Bool`.  `pairIssued` records whether
`device.Pair()` was invoked. -/
def pair (b : PairBus) : Option Bool × Bool :=
  match b.paired0 with
  | .error _ => (Option.none, false)
  | .ok true => (some true, false)
  | .ok false =>
      match b.pairCmd with
      | .error _ => (Option.none, true)
      | .ok _ =>
          match b.paired1 with
          | .error _ => (Option.none, true)
          | .ok true => (some true, true)
          | .ok false => (some false, true)

/-- The two bus interactions `disconnect` performs, in program order:
the `Connected` read and the `device.Disconnect()` command. -/
structure DisconnectBus where
  connected : Except DBusException Bool
  disconnectCmd : Except DBusException Unit
deriving Repr

/-- `disconnect`: returns `(result, disconnectIssued)`; the `except`
branch returns `False`. -/
def disconnect (b : DisconnectBus) : Bool × Bool :=
  match b.connected with
  | .error _ => (false, false)
  | .ok false => (true, false)
  | .ok true =>
      match b.disconnectCmd with
      | .error _ => (false, true)
      | .ok _ => (true, true)

/-- The device-interface entry of a managed object, when present:
`interfaces[constants.device_interface]`, with its optional
`"Address"` property. -/
structure DeviceProps where
  address : Option String
deriving DecidableEq, Repr

/-- One entry of `GetManagedObjects()`: an object path together with the
device-interface properties, when `constants.device_interface` is among
its interfaces. -/
structure ManagedObject where
  path : String
  device : Option DeviceProps
deriving DecidableEq, Repr

/-- The first-scan condition of `unpair_device`:
`constants.device_interface in interfaces and
interfaces[...].get("Address") == address and
path.startswith(self.adapter_path)`. -/
def isAdapterDevice (adapter_path address : String)
    (o : ManagedObject) : Bool :=
  match o.device with
  | some props =>
      props.address == some address
        && adapter_path.data.isPrefixOf o.path.data
  | Option.none => false

/-- The first scan of `unpair_device`: the path of the first managed
object satisfying `isAdapterDevice`, if any (`break` on first hit). -/
def findDeviceObject (adapter_path address : String) :
    List ManagedObject → Option String
  | [] => Option.none
  | o :: rest =>
      if isAdapterDevice adapter_path address o then some o.path
      else findDeviceObject adapter_path address rest

/-- The re-scan condition of `unpair_device` after the settle interval:
`constants.device_interface in interfaces and
interfaces[...].get("Address") == address` — note no adapter-path
restriction on the re-scan. -/
def deviceStillPresent (address : String)
    (objs : List ManagedObject) : Bool :=
  objs.any fun o =>
    match o.device with
    | some props => props.address == some address
    | Option.none => false

/-- `unpair_device`: returns `(result, removeIssued)`.  `objs1` is the
first `GetManagedObjects()` enumeration, `removeCmd` the outcome of
`adapter.RemoveDevice(target_path)`, and `objs2` the re-scan after the
`time.sleep(0.5)` settle interval.  A `DBusException` anywhere in the
`try` yields `False`. -/
def unpair_device (adapter_path address : String)
    (objs1 : List ManagedObject) (removeCmd : Except DBusException Unit)
    (objs2 : List ManagedObject) : Bool × Bool :=
  match findDeviceObject adapter_path address objs1 with
  | Option.none => (true, false)
  | some _ =>
      match removeCmd with
      | .error _ => (false, true)
      | .ok _ => (!deviceStillPresent address objs2, true)

end Bluez

namespace Bluez

/-!
Transfer coordinator: `send_file`, `receive_file`, `media_control`.
-/

/-- `send_file` with `session_path=None` (the case in which it creates
the OBEX session itself), as a function of the external outcomes, in
program order:
* `fileExists` — `os.path.exists(file_path)`;
* `createResult` — `create_obex_session(...)`: `some path` on success,
  `Option.none` when it failed internally (it catches its own
  exceptions and returns `False`; `SendFile` on that bogus session then
  raises, and no session was created);
* `sendResult` — `opp_interface.SendFile(file_path)`: the transfer
  path, or the exception it raised;
* `loopStatus` — `self.transfer_status["status"]` once
  `transfer_loop.run()` returns.

Returns `(status, sessionCreated, removeCalled)`: the Python return
value, whether a session was created, and whether
`remove_obex_session` was invoked before returning (that call catches
its own exceptions, so it cannot abort `send_file`). -/
def send_file (fileExists : Bool) (createResult : Option String)
    (sendResult : Except PyException String) (loopStatus : String) :
    String × Bool × Bool :=
  if !fileExists then ("error", false, false)
  else
    match createResult with
    | Option.none => ("error", false, false)
    | some _ =>
        match sendResult with
        | .error _ => ("error", true, false)
        | .ok _ => (loopStatus, true, true)

/-- The polling loop of `receive_file`.  `existing` is the directory
listing captured before the push server started; `polls` gives the
listing seen by each `os.listdir` iteration before the timeout expires
(the list's end is the timeout); `confirm` is `user_confirm_callback`
(absent callback: `fun _ => true`); `stopped` records whether
`stop_opp_receiver` has been called so far.  On a rejected file the
code calls `stop_opp_receiver` and then keeps looping; when the `while`
condition expires the function falls off the end, returning `None`
with no `stop_opp_receiver` call on that path. -/
def receive_loop (saveDir : String) (existing : List String)
    (confirm : String → Bool) (stopped : Bool) :
    List (List String) → Option String × Bool
  | [] => (Option.none, stopped)
  | cur :: rest =>
      match cur.filter (fun f => !existing.contains f) with
      | [] => receive_loop saveDir existing confirm stopped rest
      | f :: _ =>
          if confirm (saveDir ++ "/" ++ f) then
            (some (saveDir ++ "/" ++ f), true)
          else receive_loop saveDir existing confirm true rest

/-- `receive_file`: starts the push server and runs the polling loop
(no `stop_opp_receiver` call has happened when the loop starts).
Returns `(result, receiverStopped)`. -/
def receive_file (saveDir : String) (existing : List String)
    (confirm : String → Bool) (polls : List (List String)) :
    Option String × Bool :=
  receive_loop saveDir existing confirm false polls

/-- The `valid_commands` dict of `media_control`. -/
def valid_commands : List (String × String) :=
  [("play", "Play"), ("pause", "Pause"), ("next", "Next"),
   ("previous", "Previous"), ("rewind", "Rewind")]

/-- How a `media_control` call that returned normally played out. -/
inductive MediaOutcome where
  /-- The remote AVRCP operation was invoked and succeeded. -/
  | sent (op : String)
  /-- `valid_commands[command]` raised `KeyError` inside the `try`;
  caught by `except Exception`. -/
  | failedInvalidCommand
  /-- `get_media_control_interface` returned `None`, so
  `getattr(None, ...)` raised `AttributeError`; caught. -/
  | failedNoInterface
  /-- The remote operation raised; caught. -/
  | failedRemote
deriving DecidableEq, Repr

/-- `media_control`: returns `(scanPerformed, outcome)`.  The invalid
command check at the top only logs — it does not return — so
`get_media_control_interface(address)` (the managed-object scan, whose
result is `scanResult`; it catches its own exceptions and yields
`None`) runs unconditionally; the `try` block then evaluates
`valid_commands[command]` before using the interface object, and
`except Exception` catches everything, so the function always returns
normally (`None` in Python). -/
def media_control (command : String) (scanResult : Option String)
    (remote : String → Except PyException Unit) : Bool × MediaOutcome :=
  (true,
    match valid_commands.lookup command with
    | Option.none => .failedInvalidCommand
    | some op =>
        match scanResult with
        | Option.none => .failedNoInterface
        | some _ =>
            match remote op with
            | .error _ => .failedRemote
            | .ok _ => .sent op)

end Bluez

open Bluez

/-! Helper lemmas shared by the claim theorems. -/

theorem string_ext (a b : String) (h : a.data = b.data) : a = b := by
  cases a
  cases b
  exact congrArg String.mk (by simpa using h)

theorem str_append_assoc (a b c : String) : a ++ b ++ c = a ++ (b ++ c) :=
  string_ext _ _ (by simp [String.data_append, List.append_assoc])

theorem isSeg_of_prefix (n hay : List Char) (h : n <+: hay) :
    isSeg n hay = true := by
  cases hay with
  | nil =>
      have hn : n = [] := List.prefix_nil.mp h
      simp [isSeg, hn]
  | cons c t =>
      simp [isSeg, List.isPrefixOf_iff_prefix]
      exact Or.inl h

theorem isSeg_append (n pre post : List Char) :
    isSeg n (pre ++ (n ++ post)) = true := by
  induction pre with
  | nil => exact isSeg_of_prefix n (n ++ post) (List.prefix_append n post)
  | cons c pre ih =>
      rw [List.cons_append]
      simp [isSeg, ih]

theorem map_replace_back (l : List Char) (h : ∀ c ∈ l, c ≠ '_') :
    (l.map fun c => if c = ':' then '_' else c).map
      (fun c => if c = '_' then ':' else c) = l := by
  induction l with
  | nil => rfl
  | cons c t ih =>
      have hc : c ≠ '_' := h c (by simp)
      have ht : ∀ x ∈ t, x ≠ '_' := fun x hx => h x (by simp [hx])
      by_cases hcolon : c = ':'
      · simp [hcolon, ih ht]
      · simp [hcolon, hc, ih ht]

theorem findDeviceObject_eq_none (adapter address : String)
    (objs : List ManagedObject)
    (h : ∀ o ∈ objs, isAdapterDevice adapter address o = false) :
    findDeviceObject adapter address objs = Option.none := by
  induction objs with
  | nil => rfl
  | cons o rest ih =>
      have ho := h o (by simp)
      simp [findDeviceObject, ho]
      exact ih fun x hx => h x (by simp [hx])

theorem receive_loop_no_new (saveDir : String) (existing : List String)
    (confirm : String → Bool) (stopped : Bool)
    (polls : List (List String))
    (h : ∀ p ∈ polls, ∀ f ∈ p, f ∈ existing) :
    receive_loop saveDir existing confirm stopped polls
      = (Option.none, stopped) := by
  induction polls with
  | nil => rfl
  | cons p rest ih =>
      have hp : p.filter (fun f => !existing.contains f) = [] := by
        rw [List.filter_eq_nil_iff]
        intro f hf
        simp [h p (List.mem_cons_self p rest) f hf]
      simp only [receive_loop, hp]
      exact ih fun q hq => h q (List.mem_cons_of_mem p hq)

/-! Claim theorems. -/

/-- Claim C5: calling `pair` on a device that already reports
`Paired = true` returns success without issuing a `Pair` command, and
calling `disconnect` on a device that reports `Connected = false`
returns success without issuing a `Disconnect` command. -/
theorem pair_disconnect_idempotent (pb : PairBus) (db : DisconnectBus)
    (h1 : pb.paired0 = .ok true) (h2 : db.connected = .ok false) :
    pair pb = (some true, false) ∧ disconnect db = (true, false) := by
  constructor
  · simp [pair, h1]
  · simp [disconnect, h2]

/-- Witness for the C5 theorem at a concrete bus. -/
theorem pair_disconnect_idempotent_witness :
    pair ⟨.ok true, .ok (), .ok true⟩ = (some true, false) ∧
    disconnect ⟨.ok false, .ok ()⟩ = (true, false) :=
  pair_disconnect_idempotent ⟨.ok true, .ok (), .ok true⟩
    ⟨.ok false, .ok ()⟩ rfl rfl

/-- Claim C6: `unpair_device` returns `True` without issuing removal
when no device-interface object with the given address exists under the
adapter; otherwise it issues `RemoveDevice`, re-scans after the settle
interval, and returns `False` exactly when a device object with that
address is still enumerable. -/
theorem unpair_device_verified (adapter address : String)
    (objs1 objs2 : List ManagedObject)
    (removeCmd : Except DBusException Unit) :
    ((∀ o ∈ objs1, isAdapterDevice adapter address o = false) →
      unpair_device adapter address objs1 removeCmd objs2
        = (true, false)) ∧
    (∀ p, findDeviceObject adapter address objs1 = some p →
      removeCmd = .ok () →
      unpair_device adapter address objs1 removeCmd objs2
        = (!deviceStillPresent address objs2, true)) := by
  constructor
  · intro h
    simp [unpair_device, findDeviceObject_eq_none adapter address objs1 h]
  · intro p hp hr
    simp [unpair_device, hp, hr]

/-- Witness for the C6 theorem: an absent device (success, no removal)
and a present device whose removal empties the re-scan. -/
theorem unpair_device_verified_witness :
    unpair_device "/org/bluez/hci0" "AA:BB" [] (.ok ()) []
      = (true, false) ∧
    unpair_device "/org/bluez/hci0" "AA:BB"
      [⟨"/org/bluez/hci0/dev_AA_BB", some ⟨some "AA:BB"⟩⟩] (.ok ()) []
      = (true, true) := by
  constructor
  · exact (unpair_device_verified "/org/bluez/hci0" "AA:BB" [] []
      (.ok ())).1 (by simp)
  · have h := (unpair_device_verified "/org/bluez/hci0" "AA:BB"
      [⟨"/org/bluez/hci0/dev_AA_BB", some ⟨some "AA:BB"⟩⟩] []
      (.ok ())).2 "/org/bluez/hci0/dev_AA_BB" (by decide) rfl
    simpa using h

/-- Claim C7: a transport fault (`DBusException`) raised while probing
the `Paired` or `Connected` property is caught inside
`is_device_paired` / `is_device_connected` and degraded to `False`;
neither probe propagates the fault (both embeddings are total with a
`False` result on the fault case). -/
theorem probe_fault_degrades (e : DBusException)
    (interface device_path : String) :
    is_device_paired (.error e) = false ∧
    is_device_connected interface device_path (.error e) = false :=
  ⟨rfl, rfl⟩

/-- Claim C8: for address `AA:BB:CC:DD:EE:FF` and adapter `hci0` the
derived device path is `<root>/hci0/dev_AA_BB_CC_DD_EE_FF`, and for any
colon-separated address containing no underscores, undoing the
underscore substitution recovers the original address. -/
theorem address_format_roundtrip (root addr : String)
    (h : ∀ c ∈ addr.data, c ≠ '_') :
    get_device_path root "hci0" "AA:BB:CC:DD:EE:FF"
      = root ++ "/hci0/dev_AA_BB_CC_DD_EE_FF" ∧
    unformatAddress (formatAddress addr) = addr := by
  constructor
  · have h2 : ("/" : String) ++ "hci0" ++ "/dev_"
        ++ formatAddress "AA:BB:CC:DD:EE:FF"
        = "/hci0/dev_AA_BB_CC_DD_EE_FF" := by decide
    calc get_device_path root "hci0" "AA:BB:CC:DD:EE:FF"
        = root ++ "/" ++ "hci0" ++ "/dev_"
            ++ formatAddress "AA:BB:CC:DD:EE:FF" := rfl
      _ = root ++ ("/" ++ "hci0" ++ "/dev_"
            ++ formatAddress "AA:BB:CC:DD:EE:FF") := by
          simp [str_append_assoc]
      _ = root ++ "/hci0/dev_AA_BB_CC_DD_EE_FF" := by rw [h2]
  · apply string_ext
    exact map_replace_back addr.data h

/-- Witness for the C8 theorem at the claim's concrete address. -/
theorem address_format_roundtrip_witness :
    get_device_path "/org/bluez" "hci0" "AA:BB:CC:DD:EE:FF"
      = "/org/bluez" ++ "/hci0/dev_AA_BB_CC_DD_EE_FF" ∧
    unformatAddress (formatAddress "AA:BB:CC:DD:EE:FF")
      = "AA:BB:CC:DD:EE:FF" :=
  address_format_roundtrip "/org/bluez" "AA:BB:CC:DD:EE:FF" (by decide)

/-- Claim C10: every path produced by `get_device_path` contains the
adapter interface name as a substring, so the path/interface-mismatch
branch of `is_device_connected` is unreachable: on such paths the
result is decided by the `Connected` read or by the exception handler
alone. -/
theorem mismatch_branch_unreachable (root interface addr : String)
    (get : Except DBusException Bool) :
    isSeg interface.data (get_device_path root interface addr).data
      = true ∧
    is_device_connected interface (get_device_path root interface addr)
        get
      = match get with
        | .ok c => c
        | .error _ => false := by
  have hdata : (get_device_path root interface addr).data
      = (root.data ++ "/".data)
        ++ (interface.data
            ++ ("/dev_".data ++ (formatAddress addr).data)) := by
    simp [get_device_path, String.data_append, List.append_assoc]
  have hseg : isSeg interface.data
      (get_device_path root interface addr).data = true := by
    rw [hdata]
    exact isSeg_append interface.data (root.data ++ "/".data)
      ("/dev_".data ++ (formatAddress addr).data)
  refine ⟨hseg, ?_⟩
  cases get with
  | error e => rfl
  | ok c => simp [is_device_connected, hseg]

/-- Claim C1 counterexample: with the file present, a session created
by `send_file` itself, and `SendFile` raising, `send_file` returns
"error" with the session created but `remove_obex_session` never
invoked — the session is leaked on the exception path. -/
theorem send_file_leak_cex :
    send_file true (some "/org/bluez/obex/client0/session0")
      (.error ⟨"SendFile failed"⟩) "unknown"
      = ("error", true, false) := rfl

/-- Claim C1 (amended): when `send_file` creates the session and the
transfer starts, the session is removed before returning whatever
terminal status the signal loop produced (including "error"); but when
an exception is raised during transfer start, `send_file` returns
"error" without removing the session it created. -/
theorem send_file_session_cleanup (sess transferPath loopStatus : String)
    (e : PyException) :
    send_file true (some sess) (.ok transferPath) loopStatus
      = (loopStatus, true, true) ∧
    send_file true (some sess) (.error e) loopStatus
      = ("error", true, false) :=
  ⟨rfl, rfl⟩

/-- Claim C2 counterexample: an exception raised by the operator
callback propagates out of `RequestPinCode` unchanged instead of being
turned into the rejection reply. -/
theorem agent_exception_cex :
    Agent.RequestPinCode (.error ⟨"callback raised"⟩)
      = .error ⟨"callback raised"⟩ ∧
    Agent.RequestPinCode (.error ⟨"callback raised"⟩)
      ≠ .ok .rejected := by
  refine ⟨rfl, ?_⟩
  intro h
  exact Except.noConfusion h

/-- Claim C2 (amended): no Agent handler catches exceptions from the
operator callback — `agent.py` contains no exception handling, so a
raising callback propagates out of every one of the seven handlers
unchanged. -/
theorem agent_exception_propagates (e : PyException) :
    Agent.RequestPinCode (.error e) = .error e ∧
    Agent.RequestPasskey (.error e) = .error e ∧
    Agent.RequestConfirmation (.error e) = .error e ∧
    Agent.AuthorizeService (.error e) = .error e ∧
    Agent.DisplayPasskey (.error e) = .error e ∧
    Agent.DisplayPinCode (.error e) = .error e ∧
    Agent.Cancel (.error e) = .error e :=
  ⟨rfl, rfl, rfl, rfl, rfl, rfl, rfl⟩

/-- Claim C4 counterexample: the falsy numeric passkey 0 is not
rejected by `RequestPasskey` — since `0 is not None`, the handler
returns the success value `dbus.UInt32(0)` built from the falsy
answer. -/
theorem passkey_zero_cex :
    Agent.RequestPasskey (.ok (.int 0)) = .ok (.passkeyReply 0) ∧
    (PyValue.int 0).truthy = false := by
  constructor
  · rfl
  · rfl

/-- Claim C4 (amended): every handler except `RequestPasskey` maps any
falsy callback answer to its documented rejection value `False`;
`RequestPasskey` rejects only the answer `None`, and converts the falsy
passkey 0 into the success value `UInt32(0)`. -/
theorem agent_falsy_rejection (v : PyValue) (h : v.truthy = false) :
    Agent.RequestPinCode (.ok v) = .ok .rejected ∧
    Agent.RequestConfirmation (.ok v) = .ok .rejected ∧
    Agent.AuthorizeService (.ok v) = .ok .rejected ∧
    Agent.DisplayPasskey (.ok v) = .ok .rejected ∧
    Agent.DisplayPinCode (.ok v) = .ok .rejected ∧
    Agent.Cancel (.ok v) = .ok .rejected ∧
    Agent.RequestPasskey (.ok .none) = .ok .rejected ∧
    Agent.RequestPasskey (.ok (.int 0)) = .ok (.passkeyReply 0) := by
  refine ⟨?_, ?_, ?_, ?_, ?_, ?_, rfl, rfl⟩
  · simp [Agent.RequestPinCode, h]
  · simp [Agent.RequestConfirmation, h]
  · simp [Agent.AuthorizeService, h]
  · simp [Agent.DisplayPasskey, h]
  · simp [Agent.DisplayPinCode, h]
  · simp [Agent.Cancel, h]

/-- Witness for the C4 amended theorem at the falsy answer `None`. -/
theorem agent_falsy_rejection_witness :
    Agent.RequestPinCode (.ok .none) = .ok .rejected ∧
    Agent.RequestConfirmation (.ok .none) = .ok .rejected ∧
    Agent.AuthorizeService (.ok .none) = .ok .rejected ∧
    Agent.DisplayPasskey (.ok .none) = .ok .rejected ∧
    Agent.DisplayPinCode (.ok .none) = .ok .rejected ∧
    Agent.Cancel (.ok .none) = .ok .rejected ∧
    Agent.RequestPasskey (.ok .none) = .ok .rejected ∧
    Agent.RequestPasskey (.ok (.int 0)) = .ok (.passkeyReply 0) :=
  agent_falsy_rejection .none rfl

/-- Claim C3 counterexample: with no new file across the whole timeout
window, `receive_file` returns `None` but the push-server process was
never stopped (`stop_opp_receiver` is not called on the timeout
path). -/
theorem receive_file_timeout_cex :
    receive_file "/tmp" ["a.txt"] (fun _ => true)
      [["a.txt"], ["a.txt"]] = (Option.none, false) := rfl

/-- Claim C3 (amended): when no new file appears in the save directory
within the timeout, `receive_file` returns no result (`None`), but the
push-server process it started is left running — the timeout path falls
out of the polling loop without calling `stop_opp_receiver`. -/
theorem receive_file_timeout (saveDir : String) (existing : List String)
    (confirm : String → Bool) (polls : List (List String))
    (h : ∀ p ∈ polls, ∀ f ∈ p, f ∈ existing) :
    receive_file saveDir existing confirm polls
      = (Option.none, false) :=
  receive_loop_no_new saveDir existing confirm false polls h

/-- Witness for the C3 amended theorem on a concrete quiet directory. -/
theorem receive_file_timeout_witness :
    receive_file "/tmp" ["a.txt"] (fun _ => true) [["a.txt"]]
      = (Option.none, false) :=
  receive_file_timeout "/tmp" ["a.txt"] (fun _ => true) [["a.txt"]]
    (by decide)

/-- Claim C9 counterexample: for the unknown command "stop",
`media_control` still performs the managed-object scan
(`get_media_control_interface` runs unconditionally — the invalid
command check only logs) before the command is finally rejected by the
caught `KeyError` inside the `try` block. -/
theorem media_control_invalid_cex :
    media_control "stop" Option.none (fun _ => .ok ())
      = (true, .failedInvalidCommand) := rfl

/-- Claim C9 (amended): `media_control` never lets an exception escape
— an unknown command ends as a caught `KeyError` and an unresolved
media-transport object as a caught `AttributeError` — but an unknown
command is not rejected before side effects: the managed-object scan
runs unconditionally for every command. -/
theorem media_control_boundary (command : String)
    (scanResult : Option String)
    (remote : String → Except PyException Unit) :
    (media_control command scanResult remote).1 = true ∧
    (valid_commands.lookup command = Option.none →
      (media_control command scanResult remote).2
        = .failedInvalidCommand) ∧
    (∀ op, valid_commands.lookup command = some op →
      scanResult = Option.none →
      (media_control command scanResult remote).2
        = .failedNoInterface) := by
  refine ⟨rfl, ?_, ?_⟩
  · intro h
    simp [media_control, h]
  · intro op hop hscan
    simp [media_control, hop, hscan]

/-- Witness for the C9 amended theorem: an unknown command and a valid
command with an unresolved media-transport object. -/
theorem media_control_boundary_witness :
    (media_control "stop" Option.none (fun _ => .ok ())).2
      = MediaOutcome.failedInvalidCommand ∧
    (media_control "play" Option.none (fun _ => .ok ())).2
      = MediaOutcome.failedNoInterface :=
  ⟨(media_control_boundary "stop" Option.none (fun _ => .ok ())).2.1 rfl,
   (media_control_boundary "play" Option.none
      (fun _ => .ok ())).2.2 "Play" rfl rfl⟩
